/-
Verification of the Hydrograph-versus-Seatek-Sensors data pipeline.

Shallow embedding of the repository's core data-processing code:
  * `src/utils/processor.py`   — `SeatekDataProcessor.convert_to_navd88`,
    `SeatekDataProcessor.process_data`, `ProcessingMetrics`;
  * `src/src/hydrograph_seatek_analysis/core/config.py` — `NavdConstants`;
  * `src/scripts/correlation-explanation.py` — `calculate_correlation`,
    `interpret_correlation`;
  * `src/scripts/updated_visualizer.py` / `src/src/utils/utils.py` —
    `validate_numeric_data`;
  * `src/src/hydrograph_seatek_analysis/app.py` — the orchestrator's
    skip/render decision, error counting and the process exit code.

Pandas frames are modelled as lists of records; float cells are exact
rationals, with `Option` for missing (NaN) entries and a dedicated
inductive for raw cells that may be non-numeric.
-/
import Mathlib

/-- A raw spreadsheet cell of the sensor column before numeric coercion:
a number, a missing value (NaN), or non-numeric text.
Mirrors what `pd.to_numeric(..., errors="coerce")` receives. -/
inductive RawCell where
  | num (v : ℚ)
  | na
  | text (s : String)
deriving DecidableEq

/-- `pd.to_numeric(cell, errors="coerce")`: numbers pass through, missing
and non-numeric entries coerce to missing. -/
def RawCell.toNumeric : RawCell → Option ℚ
  | .num v => some v
  | .na => none
  | .text _ => none

/-- One row of a per-river-mile frame: the `Time (Seconds)` and `Year`
columns, the `Hydrograph (Lagged)` column (missing = NaN), the sensor
column under processing (raw, possibly non-numeric), and the remaining
columns as an association list (other sensors, etc.). -/
structure Row where
  timeSeconds : ℚ
  year : ℤ
  hydro : Option ℚ
  sensor : RawCell
  others : List (String × RawCell)
deriving DecidableEq

/-- A row after `convert_to_navd88`: the sensor column now holds the
converted elevation (or missing), and a `Time (Minutes)` column has been
added.  All other columns are carried over. -/
structure ConvRow where
  timeSeconds : ℚ
  year : ℤ
  hydro : Option ℚ
  sensor : Option ℚ
  timeMinutes : ℚ
  others : List (String × RawCell)
deriving DecidableEq

/-- Fallback row used with `List.getD` when indexing input frames. -/
def defaultRow : Row := ⟨0, 0, none, RawCell.na, []⟩

/-- Fallback row used with `List.getD` when indexing converted frames. -/
def defaultConvRow : ConvRow := ⟨0, 0, none, none, 0, []⟩

/-- `NavdConstants` from `core/config.py`: the fixed (configuration-
overridable) constants of the NAVD88 conversion. -/
structure NavdConstants where
  offset_a : ℚ := 19/10
  offset_b : ℚ := 8/25
  scale_factor : ℚ := 400 / (3048/100)
deriving DecidableEq

/-- The NAVD88 conversion formula applied to one raw sensor value, from
`SeatekDataProcessor.convert_to_navd88`:
`-(raw + 1.9 - 0.32) * (400 / 30.48) + y_offset`. -/
def navdValue (y_offset : ℚ) (v : ℚ) : ℚ :=
  -(v + 19/10 - 8/25) * (400 / (3048/100)) + y_offset

/-- Per-row action of `SeatekDataProcessor.convert_to_navd88`: add the
`Time (Minutes)` column (= seconds / 60), coerce the sensor cell to
numeric and overwrite it with the converted elevation; every other
column passes through. -/
def convertRow (y_offset : ℚ) (r : Row) : ConvRow :=
  { timeSeconds := r.timeSeconds
    year := r.year
    hydro := r.hydro
    sensor := r.sensor.toNumeric.map (navdValue y_offset)
    timeMinutes := r.timeSeconds / 60
    others := r.others }

/-- `SeatekDataProcessor.convert_to_navd88` on a whole frame (the Python
method works on a copy of the frame, so it is a pure map over rows). -/
def convert_to_navd88 (y_offset : ℚ) (data : List Row) : List ConvRow :=
  data.map (convertRow y_offset)

/-- `rm_data.data[rm_data.data["Year"] == year]`: the year slice taken at
the start of `SeatekDataProcessor.process_data`. -/
def yearRows (data : List Row) (year : ℤ) : List Row :=
  data.filter (fun r => decide (r.year = year))

/-- The hydrograph view: rows whose `Hydrograph (Lagged)` is non-null and
non-zero (`processed[...].notna() & (processed[...] != 0)`). -/
def hydroFilter (processed : List ConvRow) : List ConvRow :=
  processed.filter (fun r => decide (r.hydro ≠ none ∧ r.hydro ≠ some 0))

/-- The sensor view: rows whose converted sensor value is non-null and
non-zero (`processed[sensor].notna() & (processed[sensor] != 0)`). -/
def sensorFilter (processed : List ConvRow) : List ConvRow :=
  processed.filter (fun r => decide (r.sensor ≠ none ∧ r.sensor ≠ some 0))

/-- Column projection `df[["Time (Seconds)", sensor]]` of the (already
filtered, hence non-null) sensor view, as (timestamp, value) pairs. -/
def sensorPairs (df : List ConvRow) : List (ℚ × ℚ) :=
  df.filterMap (fun r => r.sensor.map (fun v => (r.timeSeconds, v)))

/-- Column projection `df[["Time (Seconds)", "Hydrograph (Lagged)"]]` of
the (already filtered, hence non-null) hydrograph view. -/
def hydroPairs (df : List ConvRow) : List (ℚ × ℚ) :=
  df.filterMap (fun r => r.hydro.map (fun v => (r.timeSeconds, v)))

/-- `hydro_df.loc[:, "Hydrograph (Lagged)"] = 0`: the display fallback
that forces every hydrograph value of the view to zero. -/
def forceHydroZero (df : List ConvRow) : List ConvRow :=
  df.map (fun r => { r with hydro := some 0 })

/-- One row of the merged frame produced by `pd.merge(..., how="outer")`
on `Time (Seconds)`: value columns are null where the originating view
had no matching timestamp. -/
structure JoinRow where
  timeSeconds : ℚ
  sensor : Option ℚ
  hydro : Option ℚ
deriving DecidableEq

/-- Rows contributed by one sensor-view entry `s` in the outer merge:
one combined row per hydrograph entry with the same timestamp, or a
single row with a null hydrograph column when there is no match. -/
def leftRows (H : List (ℚ × ℚ)) (s : ℚ × ℚ) : List JoinRow :=
  let ms := H.filter (fun h => decide (h.1 = s.1))
  if ms.isEmpty then [⟨s.1, some s.2, none⟩]
  else ms.map (fun h => ⟨s.1, some s.2, some h.2⟩)

/-- Rows contributed by hydrograph-view entries whose timestamp matches
no sensor-view entry: the sensor column is null there. -/
def rightRows (S H : List (ℚ × ℚ)) : List JoinRow :=
  (H.filter (fun h => !(S.any (fun s => decide (s.1 = h.1))))).map
    (fun h => ⟨h.1, none, some h.2⟩)

/-- `pd.merge(sensor_view, hydro_view, on="Time (Seconds)", how="outer")`:
matched pairs, unmatched sensor rows, and unmatched hydrograph rows.
(The key order pandas produces is irrelevant here: `process_data` sorts
the result by time immediately afterwards.) -/
def outerJoin (S H : List (ℚ × ℚ)) : List JoinRow :=
  S.flatMap (leftRows H) ++ rightRows S H

/-- One row of the final merged output of `process_data`, with the
recalculated `Time (Minutes)` column. -/
structure MergedRow where
  timeSeconds : ℚ
  sensor : Option ℚ
  hydro : Option ℚ
  timeMinutes : ℚ
deriving DecidableEq

/-- `ProcessingMetrics` from `src/utils/processor.py` (Python integers). -/
structure ProcessingMetrics where
  original_rows : ℤ := 0
  invalid_rows : ℤ := 0
  zero_values : ℤ := 0
  null_values : ℤ := 0
  valid_rows : ℤ := 0
deriving DecidableEq

/-- `merged.sort_values("Time (Minutes)")`: ascending sort by the
recalculated time column (a permutation of the merged rows). -/
def sortByMinutes (l : List MergedRow) : List MergedRow :=
  l.insertionSort (fun a b => a.timeMinutes ≤ b.timeMinutes)

/-- `SeatekDataProcessor.process_data` for a loaded river mile, with the
river-mile offset already resolved (`self.offsets.get(river_mile, 0)`):
slice the year, convert, filter the two streams independently, update
the metrics from the sensor column, apply the empty-sensor fallback,
outer-join on `Time (Seconds)`, recalculate `Time (Minutes)`, sort by
time, and fill in the row-count metrics. -/
def process_data (data : List Row) (year : ℤ) (y_offset : ℚ) :
    List MergedRow × ProcessingMetrics :=
  let year_data := yearRows data year
  let m0 : ProcessingMetrics := { original_rows := (year_data.length : ℤ) }
  if year_data.isEmpty then ([], m0)
  else
    let processed := convert_to_navd88 y_offset year_data
    let hydro_df := hydroFilter processed
    let sensor_df := sensorFilter processed
    let m1 : ProcessingMetrics :=
      { m0 with
        null_values := (processed.countP (fun r => decide (r.sensor = none)) : ℤ)
        zero_values := (processed.countP (fun r => decide (r.sensor = some 0)) : ℤ) }
    let hydro_df2 :=
      if sensor_df.isEmpty && !hydro_df.isEmpty then forceHydroZero hydro_df
      else hydro_df
    let merged0 := outerJoin (sensorPairs sensor_df) (hydroPairs hydro_df2)
    let merged := sortByMinutes (merged0.map
      (fun j => MergedRow.mk j.timeSeconds j.sensor j.hydro (j.timeSeconds / 60)))
    (merged,
      { m1 with
        valid_rows := (merged.length : ℤ)
        invalid_rows := (year_data.length : ℤ) - (processed.length : ℤ) })

/-- An IEEE-float cell of a numeric pandas Series, for
`validate_numeric_data`: a finite number, NaN, or one of the two
infinities (finite values are exact rationals). -/
inductive FloatVal where
  | num (v : ℚ)
  | nan
  | inf
  | negInf
deriving DecidableEq

/-- `data.notna()`: false exactly on NaN. -/
def fvNotna : FloatVal → Bool
  | .nan => false
  | _ => true

/-- `data != 0` under float comparison semantics (NaN compares unequal
to everything, so `NaN != 0` is true). -/
def fvNeZero : FloatVal → Bool
  | .num v => decide (v ≠ 0)
  | _ => true

/-- `data > 0` under float comparison semantics (comparisons with NaN
are false; `inf > 0` is true). -/
def fvGtZero : FloatVal → Bool
  | .num v => decide (0 < v)
  | .inf => true
  | _ => false

/-- `data != float("inf")`. -/
def fvNeInf : FloatVal → Bool
  | .inf => false
  | _ => true

/-- `data != float("-inf")`. -/
def fvNeNegInf : FloatVal → Bool
  | .negInf => false
  | _ => true

/-- `validate_numeric_data` from `src/src/utils/utils.py` (and
`src/scripts/updated_visualizer.py`): keep only the entries that are
non-missing, non-zero, strictly positive, and finite; order preserved,
invalid entries removed rather than replaced. -/
def validate_numeric_data (data : List FloatVal) : List FloatVal :=
  data.filter (fun x =>
    fvNotna x && fvNeZero x && fvGtZero x && fvNeInf x && fvNeNegInf x)

/-- `np.mean` of a list of values (empty input handled as NaN in numpy;
here division by a zero length yields 0, which the callers below never
distinguish because the degenerate branch of `calculate_correlation`
fires on empty input anyway). -/
def npMean (l : List ℚ) : ℚ := l.sum / (l.length : ℚ)

/-- Deviations from the mean: `x - x_mean` (vectorised subtraction). -/
def devs (l : List ℚ) : List ℚ := l.map (fun v => v - npMean l)

/-- `np.sum(x_dev * y_dev)`: the correlation numerator of
`calculate_correlation`. -/
def corrNumerator (x y : List ℚ) : ℚ :=
  (List.zipWith (fun a b => a * b) (devs x) (devs y)).sum

/-- `np.sum(x_dev**2)`: a deviation sum of squares. -/
def sumSq (l : List ℚ) : ℚ := (l.map (fun v => v ^ 2)).sum

/-- The square of the correlation denominator,
`np.sum(x_dev**2) * np.sum(y_dev**2)` (the code takes its square root;
the root is zero exactly when this product is zero). -/
def corrDenomSq (x y : List ℚ) : ℚ := sumSq (devs x) * sumSq (devs y)

/-- `interpret_correlation` from `src/scripts/correlation-explanation.py`:
strength band from `abs(correlation)`, direction from its sign, rendered
as `f"{strength} {direction} correlation"`. -/
noncomputable def interpret_correlation (r : ℝ) : String :=
  let direction := if 0 ≤ r then "positive" else "negative"
  let strength :=
    if 9/10 ≤ |r| then "Very strong"
    else if 7/10 ≤ |r| then "Strong"
    else if 5/10 ≤ |r| then "Moderate"
    else if 3/10 ≤ |r| then "Weak"
    else "Very weak or no"
  strength ++ " " ++ direction ++ " correlation"

/-- `calculate_correlation` from `src/scripts/correlation-explanation.py`:
Pearson coefficient with an explicit guard — when the denominator is
zero it returns `0.0` with the insufficient-variation label instead of
dividing. -/
noncomputable def calculate_correlation (x y : List ℚ) : ℝ × String :=
  if corrDenomSq x y = 0 then
    (0, "No correlation (insufficient variation in data)")
  else
    ((corrNumerator x y : ℝ) / Real.sqrt (corrDenomSq x y : ℝ),
      interpret_correlation ((corrNumerator x y : ℝ) / Real.sqrt (corrDenomSq x y : ℝ)))

/-- The orchestrator's decision for one (river mile, year, sensor) job in
`Application.process_data` (`app.py`): skip (with a warning) or go on to
attempt chart rendering. -/
inductive JobDecision where
  | skip
  | render
deriving DecidableEq

/-- `if processed_data.empty: warn and continue, else create_chart(...)`:
the skip/render decision of the per-job loop in `Application.process_data`,
applied to the processor's merged output. -/
def process_job (data : List Row) (year : ℤ) (y_offset : ℚ) : JobDecision :=
  if (process_data data year y_offset).1.isEmpty then JobDecision.skip
  else JobDecision.render

/-- Outcome of one job of the per-(river mile, year, sensor) loop in
`Application.process_data`, abstracting the external chart library and
filesystem: skipped (empty frame), chart saved, chart creation returned
no figure, saving failed, or an exception was raised. -/
inductive JobResult where
  | skipped
  | saved
  | chartFailed
  | saveFailed
  | excRaised
deriving DecidableEq

/-- Whether a job outcome increments `error_count` in
`Application.process_data` (everything except a skip or a save). -/
def isJobError : JobResult → Bool
  | .saved => false
  | .skipped => false
  | _ => true

/-- The `error_count` accumulated by `Application.process_data`. -/
def error_count (results : List JobResult) : ℕ := results.countP isJobError

/-- The `success_count` accumulated by `Application.process_data`. -/
def success_count (results : List JobResult) : ℕ :=
  results.countP (fun r => decide (r = JobResult.saved))

/-- `Application.process_data`'s return value: `error_count == 0`. -/
def processDataOk (results : List JobResult) : Bool := error_count results == 0

/-- `Application.run`: setup, then `load_data`, then `process_data`; false
as soon as one stage fails. -/
def runOk (setup_ok load_ok : Bool) (results : List JobResult) : Bool :=
  setup_ok && load_ok && processDataOk results

/-- `main` from `app.py`: exit code 0 when `app.run()` returned true, 1
otherwise. -/
def main_exit_code (setup_ok load_ok : Bool) (results : List JobResult) : ℕ :=
  if runOk setup_ok load_ok results then 0 else 1

/-- The processor never changes the row count during conversion, so the
`valid_rows` metric is exactly the length of the merged output frame. -/
theorem process_data_valid_rows_eq (data : List Row) (year : ℤ) (y_offset : ℚ) :
    (process_data data year y_offset).2.valid_rows =
      ((process_data data year y_offset).1.length : ℤ) := by
  simp only [process_data]
  split
  · simp
  · rfl

/-- C7: the numeric-series filter is idempotent: filtering an
already-filtered series changes nothing, because the kept entries
(non-missing, strictly positive, finite) still satisfy the predicate. -/
theorem filter_valid_numeric_idempotent (x : List FloatVal) :
    validate_numeric_data (validate_numeric_data x) = validate_numeric_data x := by
  unfold validate_numeric_data
  rw [List.filter_filter]
  congr 1
  funext a
  exact Bool.and_self _

/-- C10: `ProcessingMetrics.invalid_rows` is identically zero:
`process_data` computes it as `original_rows - len(processed)`, and the
conversion step is a row-preserving map, so the delta never moves. -/
theorem invalid_rows_always_zero (data : List Row) (year : ℤ) (y_offset : ℚ) :
    (process_data data year y_offset).2.invalid_rows = 0 := by
  simp only [process_data]
  split
  · rfl
  · simp [convert_to_navd88]

/-- C5 (amended): the process exit code is 0 exactly when setup
succeeded, the data loaded, and no per-job error was counted; any
per-job chart/save failure makes `Application.process_data` return
false, so `main` exits 1. -/
theorem exit_zero_iff_no_job_errors (setup_ok load_ok : Bool)
    (results : List JobResult) :
    main_exit_code setup_ok load_ok results = 0 ↔
      (setup_ok = true ∧ load_ok = true ∧ error_count results = 0) := by
  by_cases he : error_count results = 0 <;>
    cases setup_ok <;> cases load_ok <;>
      simp [main_exit_code, runOk, processDataOk, he]

/-- C5 counterexample: a run whose setup and data loading succeed but
with one failed chart job exits with code 1, not 0. -/
theorem exit_code_one_on_job_failure :
    main_exit_code true true [JobResult.saved, JobResult.chartFailed] = 1 := by
  decide

/-- C4 (amended): the per-job loop of `Application.process_data` skips
exactly the empty merged tables (`processed_data.empty`); every merged
table with at least one row — not two — goes on to a rendering attempt. -/
theorem render_decision_iff (data : List Row) (year : ℤ) (y_offset : ℚ) :
    (process_job data year y_offset = JobDecision.skip ↔
      (process_data data year y_offset).2.valid_rows = 0)
  ∧ (process_job data year y_offset = JobDecision.render ↔
      1 ≤ (process_data data year y_offset).2.valid_rows) := by
  have hv := process_data_valid_rows_eq data year y_offset
  unfold process_job
  by_cases h : (process_data data year y_offset).1.isEmpty
  · rw [if_pos h]
    rw [List.isEmpty_iff] at h
    rw [h] at hv
    constructor
    · simp [hv]
    · constructor
      · intro hc
        exact absurd hc (by simp)
      · intro h1
        rw [hv] at h1
        exact absurd h1 (by simp)
  · rw [if_neg h]
    rw [List.isEmpty_iff] at h
    have hlen : 1 ≤ (process_data data year y_offset).1.length :=
      Nat.one_le_iff_ne_zero.mpr (fun h0 => h (List.length_eq_zero.mp h0))
    constructor
    · constructor
      · intro hc
        exact absurd hc (by simp)
      · intro h0
        rw [hv] at h0
        omega
    · constructor
      · intro _
        rw [hv]
        exact_mod_cast hlen
      · intro _
        rfl

/-- C4 counterexample: a merged table with exactly one row is not
skipped — the orchestrator's guard is `processed_data.empty`, so a
single-row table proceeds to a rendering attempt. -/
theorem one_row_table_renders :
    (process_data [Row.mk 60 1995 (some 3) RawCell.na []] 1995 0).1.length = 1
    ∧ process_job [Row.mk 60 1995 (some 3) RawCell.na []] 1995 0
        = JobDecision.render := by
  decide

/-- Indexing a converted frame is converting the indexed row: the
conversion is a per-row map. -/
theorem convert_getD (y : ℚ) (rows : List Row) (i : ℕ) (hi : i < rows.length) :
    (convert_to_navd88 y rows).getD i defaultConvRow
      = convertRow y (rows.getD i defaultRow) := by
  unfold convert_to_navd88
  rw [List.getD_eq_getElem?_getD, List.getElem?_map, List.getD_eq_getElem?_getD,
    List.getElem?_eq_getElem hi]
  rfl

/-- C1: for every numeric raw sensor value `v` and offset `y`,
`convert_to_navd88` overwrites the sensor cell with exactly
`-(v + 1.9 - 0.32) * (400 / 30.48) + y` and sets the added
`Time (Minutes)` cell to `time_seconds / 60`. -/
theorem conversion_formula_exact (y : ℚ) (rows : List Row) (i : ℕ)
    (hi : i < rows.length) (v : ℚ)
    (hv : (rows.getD i defaultRow).sensor = RawCell.num v) :
    ((convert_to_navd88 y rows).getD i defaultConvRow).sensor
        = some (-(v + 19/10 - 8/25) * (400 / (3048/100)) + y)
    ∧ ((convert_to_navd88 y rows).getD i defaultConvRow).timeMinutes
        = (rows.getD i defaultRow).timeSeconds / 60 := by
  rw [convert_getD y rows i hi]
  unfold convertRow navdValue
  rw [hv]
  exact ⟨rfl, rfl⟩

/-- C1 witness: the conversion at the spec's example row
(time 600 s, raw value 5, offset 10.5). -/
theorem conversion_formula_exact_witness :
    (0 < [Row.mk 600 1 none (RawCell.num 5) []].length
      ∧ ([Row.mk 600 1 none (RawCell.num 5) []].getD 0 defaultRow).sensor
          = RawCell.num 5)
    ∧ (((convert_to_navd88 (21/2) [Row.mk 600 1 none (RawCell.num 5) []]).getD 0
            defaultConvRow).sensor
        = some (-(5 + 19/10 - 8/25) * (400 / (3048/100)) + 21/2)
      ∧ ((convert_to_navd88 (21/2) [Row.mk 600 1 none (RawCell.num 5) []]).getD 0
            defaultConvRow).timeMinutes
        = ([Row.mk 600 1 none (RawCell.num 5) []].getD 0 defaultRow).timeSeconds / 60) :=
  ⟨⟨by decide, by decide⟩,
    conversion_formula_exact (21/2) [Row.mk 600 1 none (RawCell.num 5) []] 0
      (by decide) 5 (by decide)⟩

/-- C8: `convert_to_navd88` changes only the sensor column (overwriting
it with the coerced-and-converted value, non-numeric raw cells becoming
missing) and adds the minutes column; time, year, hydrograph and all
other columns pass through unchanged, and the row count is preserved.
(The Python method works on `data.copy()`, so the input frame itself is
untouched; in this pure embedding the input is immutable by
construction.) -/
theorem conversion_frame_effect (y : ℚ) (rows : List Row) (i : ℕ)
    (hi : i < rows.length) :
    ((convert_to_navd88 y rows).getD i defaultConvRow).timeSeconds
        = (rows.getD i defaultRow).timeSeconds
    ∧ ((convert_to_navd88 y rows).getD i defaultConvRow).year
        = (rows.getD i defaultRow).year
    ∧ ((convert_to_navd88 y rows).getD i defaultConvRow).hydro
        = (rows.getD i defaultRow).hydro
    ∧ ((convert_to_navd88 y rows).getD i defaultConvRow).others
        = (rows.getD i defaultRow).others
    ∧ ((convert_to_navd88 y rows).getD i defaultConvRow).sensor
        = (rows.getD i defaultRow).sensor.toNumeric.map (navdValue y)
    ∧ ((rows.getD i defaultRow).sensor.toNumeric = none →
        ((convert_to_navd88 y rows).getD i defaultConvRow).sensor = none)
    ∧ (convert_to_navd88 y rows).length = rows.length := by
  rw [convert_getD y rows i hi]
  refine ⟨rfl, rfl, rfl, rfl, rfl, ?_, ?_⟩
  · intro h
    unfold convertRow
    rw [h]
    rfl
  · unfold convert_to_navd88
    exact List.length_map rows (convertRow y)

/-- C8 witness: a row with a non-numeric sensor cell and an extra
pass-through column. -/
theorem conversion_frame_effect_witness :
    (0 < [Row.mk 7 2 (some 3) (RawCell.text "bad") [("Sensor_2", RawCell.num 4)]].length)
    ∧ (((convert_to_navd88 1 [Row.mk 7 2 (some 3) (RawCell.text "bad")
            [("Sensor_2", RawCell.num 4)]]).getD 0 defaultConvRow).timeSeconds
        = ([Row.mk 7 2 (some 3) (RawCell.text "bad")
            [("Sensor_2", RawCell.num 4)]].getD 0 defaultRow).timeSeconds
      ∧ ((convert_to_navd88 1 [Row.mk 7 2 (some 3) (RawCell.text "bad")
            [("Sensor_2", RawCell.num 4)]]).getD 0 defaultConvRow).year
        = ([Row.mk 7 2 (some 3) (RawCell.text "bad")
            [("Sensor_2", RawCell.num 4)]].getD 0 defaultRow).year
      ∧ ((convert_to_navd88 1 [Row.mk 7 2 (some 3) (RawCell.text "bad")
            [("Sensor_2", RawCell.num 4)]]).getD 0 defaultConvRow).hydro
        = ([Row.mk 7 2 (some 3) (RawCell.text "bad")
            [("Sensor_2", RawCell.num 4)]].getD 0 defaultRow).hydro
      ∧ ((convert_to_navd88 1 [Row.mk 7 2 (some 3) (RawCell.text "bad")
            [("Sensor_2", RawCell.num 4)]]).getD 0 defaultConvRow).others
        = ([Row.mk 7 2 (some 3) (RawCell.text "bad")
            [("Sensor_2", RawCell.num 4)]].getD 0 defaultRow).others
      ∧ ((convert_to_navd88 1 [Row.mk 7 2 (some 3) (RawCell.text "bad")
            [("Sensor_2", RawCell.num 4)]]).getD 0 defaultConvRow).sensor
        = ([Row.mk 7 2 (some 3) (RawCell.text "bad")
            [("Sensor_2", RawCell.num 4)]].getD 0 defaultRow).sensor.toNumeric.map
            (navdValue 1)
      ∧ (([Row.mk 7 2 (some 3) (RawCell.text "bad")
            [("Sensor_2", RawCell.num 4)]].getD 0 defaultRow).sensor.toNumeric = none →
          ((convert_to_navd88 1 [Row.mk 7 2 (some 3) (RawCell.text "bad")
            [("Sensor_2", RawCell.num 4)]]).getD 0 defaultConvRow).sensor = none)
      ∧ (convert_to_navd88 1 [Row.mk 7 2 (some 3) (RawCell.text "bad")
            [("Sensor_2", RawCell.num 4)]]).length
        = [Row.mk 7 2 (some 3) (RawCell.text "bad")
            [("Sensor_2", RawCell.num 4)]].length) :=
  ⟨by decide,
    conversion_frame_effect 1
      [Row.mk 7 2 (some 3) (RawCell.text "bad") [("Sensor_2", RawCell.num 4)]] 0
      (by decide)⟩

/-- A row contributed by sensor entry `s` carries timestamp `s.1` and
the sensor value `s.2`. -/
theorem mem_leftRows_time {H : List (ℚ × ℚ)} {s : ℚ × ℚ} {j : JoinRow}
    (hj : j ∈ leftRows H s) : j.timeSeconds = s.1 ∧ j.sensor = some s.2 := by
  unfold leftRows at hj
  simp only at hj
  split at hj
  · rw [List.mem_singleton] at hj
    subst hj
    exact ⟨rfl, rfl⟩
  · obtain ⟨h, _, rfl⟩ := List.mem_map.mp hj
    exact ⟨rfl, rfl⟩

/-- The key-match filter is empty exactly when the key is absent. -/
theorem filter_key_eq_nil_iff {H : List (ℚ × ℚ)} {a : ℚ} :
    H.filter (fun h => decide (h.1 = a)) = [] ↔ a ∉ H.map Prod.fst := by
  rw [List.filter_eq_nil_iff]
  simp only [decide_eq_true_eq, List.mem_map]
  constructor
  · rintro h ⟨p, hp, rfl⟩
    exact h p hp rfl
  · rintro h p hp rfl
    exact h ⟨p, hp, rfl⟩

/-- With pairwise-distinct keys, at most one entry matches a key. -/
theorem filter_key_length_le_one {H : List (ℚ × ℚ)}
    (hH : (H.map Prod.fst).Nodup) (a : ℚ) :
    (H.filter (fun h => decide (h.1 = a))).length ≤ 1 := by
  induction H with
  | nil => simp
  | cons h tl ih =>
    rw [List.map_cons, List.nodup_cons] at hH
    by_cases hk : h.1 = a
    · rw [List.filter_cons_of_pos (by simpa using hk)]
      have : tl.filter (fun p => decide (p.1 = a)) = [] := by
        rw [filter_key_eq_nil_iff]
        rw [← hk]
        exact hH.1
      simp [this]
    · rw [List.filter_cons_of_neg (by simpa using hk)]
      exact ih hH.2

/-- Hydrograph facts about a sensor-contributed row: a present value
comes from the hydrograph view at the same timestamp, a missing value
means the timestamp is absent from the hydrograph view. -/
theorem mem_leftRows_hydro {H : List (ℚ × ℚ)} {s : ℚ × ℚ} {j : JoinRow}
    (hj : j ∈ leftRows H s) :
    (∀ v, j.hydro = some v → (j.timeSeconds, v) ∈ H)
    ∧ (j.hydro = none → j.timeSeconds ∉ H.map Prod.fst) := by
  have ht := (mem_leftRows_time hj).1
  unfold leftRows at hj
  simp only at hj
  split at hj
  case isTrue hf =>
    rw [List.mem_singleton] at hj
    subst hj
    refine ⟨fun v hv => (by cases hv), fun _ => ?_⟩
    rw [List.isEmpty_iff] at hf
    exact filter_key_eq_nil_iff.mp hf
  case isFalse hf =>
    obtain ⟨h, hh, rfl⟩ := List.mem_map.mp hj
    rw [List.mem_filter] at hh
    have hk : h.1 = s.1 := by simpa using hh.2
    refine ⟨fun v hv => ?_, fun hv => (by cases hv)⟩
    obtain rfl : h.2 = v := by cases hv; rfl
    have : ((⟨s.1, some s.2, some h.2⟩ : JoinRow).timeSeconds, h.2) = h := by
      simp [← hk]
    rw [this]
    exact hh.1

/-- Facts about a hydrograph-only row of the merge: null sensor column,
timestamp absent from the sensor view, value drawn from the hydrograph
view. -/
theorem mem_rightRows {S H : List (ℚ × ℚ)} {j : JoinRow}
    (hj : j ∈ rightRows S H) :
    j.sensor = none ∧ j.timeSeconds ∉ S.map Prod.fst
    ∧ ∃ h ∈ H, h.1 = j.timeSeconds ∧ j.hydro = some h.2 := by
  unfold rightRows at hj
  obtain ⟨h, hh, rfl⟩ := List.mem_map.mp hj
  rw [List.mem_filter] at hh
  refine ⟨rfl, ?_, h, hh.1, rfl, rfl⟩
  intro hmem
  obtain ⟨s, hs, hk⟩ := List.mem_map.mp hmem
  have := hh.2
  rw [Bool.not_eq_eq_eq_not, Bool.not_true, List.any_eq_false] at this
  exact absurd (by simpa using hk) (by simpa using this s hs)

/-- Rows contributed by one sensor entry with a distinct-key hydrograph
view: exactly one row when the row's key is `t`, none otherwise. -/
theorem countP_leftRows {H : List (ℚ × ℚ)} (hH : (H.map Prod.fst).Nodup)
    (s : ℚ × ℚ) (t : ℚ) :
    (leftRows H s).countP (fun j => decide (j.timeSeconds = t))
      = if s.1 = t then 1 else 0 := by
  unfold leftRows
  simp only
  split
  case isTrue hf =>
    by_cases hk : s.1 = t <;> simp [hk]
  case isFalse hf =>
    rw [List.countP_map]
    by_cases hk : s.1 = t
    · rw [if_pos hk]
      have hone : (H.filter (fun h => decide (h.1 = s.1))).length = 1 := by
        have hle := filter_key_length_le_one hH s.1
        have hne : (H.filter (fun h => decide (h.1 = s.1))).length ≠ 0 := by
          intro h0
          exact hf (by simpa [List.isEmpty_iff, List.length_eq_zero] using h0)
        omega
      calc (H.filter (fun h => decide (h.1 = s.1))).countP
              ((fun j => decide (j.timeSeconds = t)) ∘
                (fun h => (⟨s.1, some s.2, some h.2⟩ : JoinRow)))
          = (H.filter (fun h => decide (h.1 = s.1))).countP (fun _ => true) := by
            apply List.countP_congr
            intro a _
            simp [hk]
        _ = 1 := by rw [List.countP_true]; exact hone
    · rw [if_neg hk]
      apply List.countP_eq_zero.mpr
      intro a _
      simp [hk]

/-- Sensor-side rows of the merge, counted by timestamp: with
distinct keys on both sides, each sensor timestamp appears exactly
once, and no other timestamp appears. -/
theorem countP_flatMap_leftRows {S H : List (ℚ × ℚ)}
    (hS : (S.map Prod.fst).Nodup) (hH : (H.map Prod.fst).Nodup) (t : ℚ) :
    (S.flatMap (leftRows H)).countP (fun j => decide (j.timeSeconds = t))
      = if t ∈ S.map Prod.fst then 1 else 0 := by
  induction S with
  | nil => simp
  | cons s tl ih =>
    rw [List.map_cons, List.nodup_cons] at hS
    rw [List.flatMap_cons, List.countP_append, countP_leftRows hH, ih hS.2]
    by_cases hk : s.1 = t
    · subst hk
      simp [hS.1]
    · by_cases hmem : t ∈ tl.map Prod.fst <;>
        simp [hk, hmem, Ne.symm hk]

/-- With distinct keys, the number of view entries carrying key `t`. -/
theorem countP_key_eq {H : List (ℚ × ℚ)} (hH : (H.map Prod.fst).Nodup) (t : ℚ) :
    H.countP (fun h => decide (h.1 = t)) = if t ∈ H.map Prod.fst then 1 else 0 := by
  induction H with
  | nil => simp
  | cons h tl ih =>
    rw [List.map_cons, List.nodup_cons] at hH
    rw [List.countP_cons, ih hH.2]
    by_cases hk : h.1 = t
    · subst hk
      have : h.1 ∉ tl.map Prod.fst := hH.1
      simp [this]
    · by_cases hmem : t ∈ tl.map Prod.fst <;>
        simp [hk, hmem, Ne.symm hk]

/-- Hydrograph-only rows of the merge, counted by timestamp: with
distinct hydrograph keys, a timestamp appears exactly once when it is a
hydrograph key absent from the sensor view. -/
theorem countP_rightRows {S H : List (ℚ × ℚ)}
    (hH : (H.map Prod.fst).Nodup) (t : ℚ) :
    (rightRows S H).countP (fun j => decide (j.timeSeconds = t))
      = if t ∈ H.map Prod.fst ∧ t ∉ S.map Prod.fst then 1 else 0 := by
  unfold rightRows
  rw [List.countP_map, List.countP_filter]
  by_cases hs : t ∈ S.map Prod.fst
  · rw [if_neg (fun hc => hc.2 hs)]
    apply List.countP_eq_zero.mpr
    intro a _
    by_cases hk : a.1 = t
    · have hany : (S.any (fun s => decide (s.1 = a.1))) = true := by
        rw [List.any_eq_true]
        obtain ⟨s, hsmem, hks⟩ := List.mem_map.mp hs
        exact ⟨s, hsmem, by simp [hks, hk]⟩
      simp [Function.comp, hany]
    · simp [Function.comp, hk]
  · have hcong : H.countP (fun a =>
        ((fun j => decide (j.timeSeconds = t)) ∘
          (fun h => (⟨h.1, none, some h.2⟩ : JoinRow))) a
          && !(S.any (fun s => decide (s.1 = a.1))))
        = H.countP (fun h => decide (h.1 = t)) := by
      apply List.countP_congr
      intro a _
      simp only [Function.comp, Bool.and_eq_true, decide_eq_true_eq]
      constructor
      · rintro ⟨hk, _⟩
        simpa using hk
      · intro hk
        refine ⟨by simpa using hk, ?_⟩
        simp only [Bool.not_eq_true', List.any_eq_false, decide_eq_true_eq]
        intro s hsmem hks
        exact hs (List.mem_map.mpr ⟨s, hsmem, by rw [hks, hk]⟩)
    rw [hcong, countP_key_eq hH t]
    by_cases hmem : t ∈ H.map Prod.fst <;> simp [hmem, hs]

/-- C2 (amended): provided timestamps are pairwise distinct within each
filtered view, the outer join on `Time (Seconds)` contains every
timestamp of either view exactly once; sensor/hydrograph values are
null exactly on rows whose timestamp is absent from the corresponding
view, and every present value is drawn from that view (never
fabricated). -/
theorem outer_join_merge_spec (S H : List (ℚ × ℚ))
    (hS : (S.map Prod.fst).Nodup) (hH : (H.map Prod.fst).Nodup) :
    (∀ t, (t ∈ S.map Prod.fst ∨ t ∈ H.map Prod.fst) →
      (outerJoin S H).countP (fun j => decide (j.timeSeconds = t)) = 1)
  ∧ (∀ j ∈ outerJoin S H,
      (∀ v, j.sensor = some v → (j.timeSeconds, v) ∈ S)
      ∧ (∀ v, j.hydro = some v → (j.timeSeconds, v) ∈ H)
      ∧ (j.sensor = none ↔ j.timeSeconds ∉ S.map Prod.fst)
      ∧ (j.hydro = none ↔ j.timeSeconds ∉ H.map Prod.fst)) := by
  constructor
  · intro t ht
    unfold outerJoin
    rw [List.countP_append, countP_flatMap_leftRows hS hH, countP_rightRows hH]
    by_cases hsmem : t ∈ S.map Prod.fst
    · simp [hsmem]
    · have hhmem : t ∈ H.map Prod.fst := ht.resolve_left hsmem
      simp [hsmem, hhmem]
  · intro j hj
    rcases List.mem_append.mp hj with hl | hr
    · obtain ⟨s, hs_mem, hjl⟩ := List.mem_flatMap.mp hl
      have ht := mem_leftRows_time hjl
      have hh := mem_leftRows_hydro hjl
      refine ⟨?_, hh.1, ?_, ?_⟩
      · intro v hv
        rw [ht.2] at hv
        obtain rfl : s.2 = v := by cases hv; rfl
        rw [ht.1]
        exact hs_mem
      · constructor
        · intro hnone
          rw [ht.2] at hnone
          cases hnone
        · intro habs
          exact absurd (ht.1 ▸ List.mem_map.mpr ⟨s, hs_mem, rfl⟩) habs
      · constructor
        · exact hh.2
        · intro habs
          cases hcase : j.hydro with
          | none => rfl
          | some v =>
            exact absurd (List.mem_map.mpr ⟨(j.timeSeconds, v), hh.1 v hcase, rfl⟩)
              habs
    · obtain ⟨hsen, habs, h, hmem, hk, hhy⟩ := mem_rightRows hr
      refine ⟨?_, ?_, ?_, ?_⟩
      · intro v hv
        rw [hsen] at hv
        cases hv
      · intro v hv
        rw [hhy] at hv
        obtain rfl : h.2 = v := by cases hv; rfl
        have : (j.timeSeconds, h.2) = h := by
          rw [← hk]
        rw [this]
        exact hmem
      · exact ⟨fun _ => habs, fun _ => hsen⟩
      · constructor
        · intro hnone
          rw [hhy] at hnone
          cases hnone
        · intro hnot
          exact absurd (List.mem_map.mpr ⟨h, hmem, hk⟩) hnot

/-- C2 witness: two one-row views with distinct timestamps. -/
theorem outer_join_merge_spec_witness :
    ((([((0:ℚ), (5:ℚ))].map Prod.fst).Nodup
      ∧ (([((60:ℚ), (7:ℚ))].map Prod.fst).Nodup))
    ∧ ((∀ t, (t ∈ [((0:ℚ), (5:ℚ))].map Prod.fst
            ∨ t ∈ [((60:ℚ), (7:ℚ))].map Prod.fst) →
        (outerJoin [((0:ℚ), (5:ℚ))] [((60:ℚ), (7:ℚ))]).countP
          (fun j => decide (j.timeSeconds = t)) = 1)
      ∧ (∀ j ∈ outerJoin [((0:ℚ), (5:ℚ))] [((60:ℚ), (7:ℚ))],
          (∀ v, j.sensor = some v → (j.timeSeconds, v) ∈ [((0:ℚ), (5:ℚ))])
          ∧ (∀ v, j.hydro = some v → (j.timeSeconds, v) ∈ [((60:ℚ), (7:ℚ))])
          ∧ (j.sensor = none ↔ j.timeSeconds ∉ [((0:ℚ), (5:ℚ))].map Prod.fst)
          ∧ (j.hydro = none ↔ j.timeSeconds ∉ [((60:ℚ), (7:ℚ))].map Prod.fst)))) :=
  ⟨⟨by decide, by decide⟩,
    outer_join_merge_spec [((0:ℚ), (5:ℚ))] [((60:ℚ), (7:ℚ))]
      (by decide) (by decide)⟩

/-- C2 counterexample: a converted frame with two rows sharing one
timestamp passes both rows through the sensor filter, and the outer
join then contains that timestamp twice, not exactly once. -/
theorem outer_join_duplicate_timestamp :
    (0:ℚ) ∈ ((sensorPairs (sensorFilter
        [ConvRow.mk 0 1 none (some 1) 0 [], ConvRow.mk 0 1 none (some 2) 0 []])).map
          Prod.fst)
    ∧ (outerJoin
        (sensorPairs (sensorFilter
          [ConvRow.mk 0 1 none (some 1) 0 [], ConvRow.mk 0 1 none (some 2) 0 []]))
        (hydroPairs (hydroFilter
          [ConvRow.mk 0 1 none (some 1) 0 [], ConvRow.mk 0 1 none (some 2) 0 []]))).countP
        (fun j => decide (j.timeSeconds = 0)) = 2 := by
  decide


/-- Every pair projected from a zero-forced hydrograph view carries the
value 0. -/
theorem hydroPairs_forceHydroZero {df : List ConvRow} {p : ℚ × ℚ}
    (hp : p ∈ hydroPairs (forceHydroZero df)) : p.2 = 0 := by
  unfold hydroPairs forceHydroZero at hp
  rw [List.filterMap_map] at hp
  obtain ⟨r, _, heq⟩ := List.mem_filterMap.mp hp
  simp only [Function.comp, Option.map_some'] at heq
  cases heq
  rfl

/-- A present hydrograph value of a merged row always comes from the
hydrograph-side input of the outer join, at the row's timestamp. -/
theorem outerJoin_hydro_mem {S H : List (ℚ × ℚ)} {j : JoinRow}
    (hj : j ∈ outerJoin S H) {v : ℚ} (hv : j.hydro = some v) :
    (j.timeSeconds, v) ∈ H := by
  unfold outerJoin at hj
  rcases List.mem_append.mp hj with hl | hr
  · obtain ⟨s, _, hjl⟩ := List.mem_flatMap.mp hl
    exact (mem_leftRows_hydro hjl).1 v hv
  · obtain ⟨_, _, h, hmem, hk, hhyj⟩ := mem_rightRows hr
    rw [hhyj] at hv
    obtain rfl : h.2 = v := by cases hv; rfl
    have hpair : (j.timeSeconds, h.2) = h := by
      rw [← hk]
    rw [hpair]
    exact hmem

/-- Every row of the final merged output of `process_data` corresponds
to a row of the outer join of the two (possibly zero-forced) views:
the recalculated-minutes map and the time sort do not add, drop or
alter rows. -/
theorem mem_process_data_merged {data : List Row} {year : ℤ} {y_offset : ℚ}
    {m : MergedRow} (hm : m ∈ (process_data data year y_offset).1) :
    ∃ j ∈ outerJoin
        (sensorPairs (sensorFilter (convert_to_navd88 y_offset (yearRows data year))))
        (hydroPairs
          (if (sensorFilter (convert_to_navd88 y_offset (yearRows data year))).isEmpty
              && !(hydroFilter (convert_to_navd88 y_offset (yearRows data year))).isEmpty
            then forceHydroZero (hydroFilter (convert_to_navd88 y_offset (yearRows data year)))
            else hydroFilter (convert_to_navd88 y_offset (yearRows data year)))),
      m.timeSeconds = j.timeSeconds ∧ m.sensor = j.sensor ∧ m.hydro = j.hydro := by
  simp only [process_data] at hm
  split at hm
  · simp at hm
  · simp only at hm
    unfold sortByMinutes at hm
    rw [(List.perm_insertionSort _ _).mem_iff] at hm
    obtain ⟨j, hj, rfl⟩ := List.mem_map.mp hm
    exact ⟨j, hj, rfl, rfl, rfl⟩

/-- C6: when the filtered sensor view is empty and the filtered
hydrograph view is not, every hydrograph value of the merged output is
exactly 0 (the forced display fallback); when the sensor view is
non-empty, the fallback does not fire and every present hydrograph
value in the merged output comes unchanged from the filtered
hydrograph view. -/
theorem empty_sensor_hydro_fallback (data : List Row) (year : ℤ) (y_offset : ℚ) :
    (sensorFilter (convert_to_navd88 y_offset (yearRows data year)) = [] →
      hydroFilter (convert_to_navd88 y_offset (yearRows data year)) ≠ [] →
      ∀ m ∈ (process_data data year y_offset).1, m.hydro = some 0)
  ∧ (sensorFilter (convert_to_navd88 y_offset (yearRows data year)) ≠ [] →
      ∀ m ∈ (process_data data year y_offset).1, ∀ v, m.hydro = some v →
        (m.timeSeconds, v) ∈
          hydroPairs (hydroFilter (convert_to_navd88 y_offset (yearRows data year)))) := by
  constructor
  · intro hsen hhyd m hm
    obtain ⟨j, hj, htime, _, hhy⟩ := mem_process_data_merged hm
    rw [hsen] at hj
    rw [if_pos (by simp [List.isEmpty_iff, hhyd])] at hj
    have hjoin : j ∈ outerJoin ([] : List (ℚ × ℚ))
        (hydroPairs (forceHydroZero
          (hydroFilter (convert_to_navd88 y_offset (yearRows data year))))) := by
      simpa [sensorPairs] using hj
    unfold outerJoin at hjoin
    rw [List.flatMap_nil, List.nil_append] at hjoin
    obtain ⟨_, _, h, hmem, _, hhyj⟩ := mem_rightRows hjoin
    have hzero : h.2 = 0 := hydroPairs_forceHydroZero hmem
    rw [hhy, hhyj, hzero]
  · intro hsen m hm v hv
    obtain ⟨j, hj, htime, _, hhy⟩ := mem_process_data_merged hm
    have hcond : ((sensorFilter (convert_to_navd88 y_offset (yearRows data year))).isEmpty
        && !(hydroFilter (convert_to_navd88 y_offset (yearRows data year))).isEmpty) = false := by
      have hne : (sensorFilter (convert_to_navd88 y_offset (yearRows data year))).isEmpty = false := by
        rw [Bool.eq_false_iff]
        intro hc
        exact hsen (List.isEmpty_iff.mp hc)
      simp [hne]
    rw [if_neg (by simp [hcond])] at hj
    have := outerJoin_hydro_mem hj (hhy ▸ hv)
    rw [htime]
    exact this

/-- C6 witness: a two-row year slice whose sensor cells are all missing
while both hydrograph values are valid; the merged output's hydrograph
values are all forced to 0. -/
theorem empty_sensor_hydro_fallback_witness :
    (sensorFilter (convert_to_navd88 0
        (yearRows [Row.mk 0 1 (some 3) RawCell.na [], Row.mk 60 1 (some 4) RawCell.na []] 1)) = []
      ∧ hydroFilter (convert_to_navd88 0
        (yearRows [Row.mk 0 1 (some 3) RawCell.na [], Row.mk 60 1 (some 4) RawCell.na []] 1)) ≠ [])
    ∧ (∀ m ∈ (process_data
        [Row.mk 0 1 (some 3) RawCell.na [], Row.mk 60 1 (some 4) RawCell.na []] 1 0).1,
        m.hydro = some 0) :=
  ⟨⟨by decide, by decide⟩,
    (empty_sensor_hydro_fallback
      [Row.mk 0 1 (some 3) RawCell.na [], Row.mk 60 1 (some 4) RawCell.na []] 1 0).1
      (by decide) (by decide)⟩

/-- A sum of squares is non-negative. -/
theorem sumSq_nonneg (l : List ℚ) : 0 ≤ sumSq l := by
  unfold sumSq
  apply List.sum_nonneg
  intro a ha
  obtain ⟨v, _, rfl⟩ := List.mem_map.mp ha
  exact sq_nonneg v

/-- Cauchy-Schwarz for lists: the squared sum of pointwise products is
at most the product of the two sums of squares. -/
theorem list_cauchy_schwarz (a b : List ℚ) :
    ((List.zipWith (fun u v => u * v) a b).sum) ^ 2 ≤ sumSq a * sumSq b := by
  induction a generalizing b with
  | nil => simp [sumSq]
  | cons x xs ih =>
    cases b with
    | nil =>
      simp [sumSq]
    | cons y ys =>
      have h := ih ys
      have hA := sumSq_nonneg xs
      have hB := sumSq_nonneg ys
      simp only [sumSq, List.zipWith_cons_cons, List.sum_cons, List.map_cons] at h hA hB ⊢
      set s := (List.zipWith (fun u v => u * v) xs ys).sum with hs
      set A := (xs.map (fun v => v ^ 2)).sum with hAdef
      set B := (ys.map (fun v => v ^ 2)).sum with hBdef
      have h1 : 0 ≤ (x*y)^2 * (A*B - s^2) := mul_nonneg (sq_nonneg _) (by linarith)
      have key : (2*x*y*s)^2 ≤ (A*y^2 + B*x^2)^2 := by
        nlinarith [h1, sq_nonneg (A*y^2 - B*x^2)]
      have ht0 : 0 ≤ A*y^2 + B*x^2 :=
        add_nonneg (mul_nonneg hA (sq_nonneg y)) (mul_nonneg hB (sq_nonneg x))
      have habs : 2*x*y*s ≤ A*y^2 + B*x^2 := by
        nlinarith [key, ht0]
      nlinarith [habs, h]

/-- The correlation numerator squared never exceeds the squared
denominator: Cauchy-Schwarz applied to the two deviation vectors. -/
theorem corrNumerator_sq_le (x y : List ℚ) :
    (corrNumerator x y) ^ 2 ≤ corrDenomSq x y := by
  unfold corrNumerator corrDenomSq
  exact list_cauchy_schwarz (devs x) (devs y)

/-- The squared correlation denominator is non-negative. -/
theorem corrDenomSq_nonneg (x y : List ℚ) : 0 ≤ corrDenomSq x y := by
  unfold corrDenomSq
  exact mul_nonneg (sumSq_nonneg _) (sumSq_nonneg _)

/-- C3: for equal-length numeric inputs, `calculate_correlation` always
returns a coefficient in [-1, 1]; when the squared denominator is zero
it returns exactly 0.0 paired with the insufficient-variation label,
and (being total, with an explicit zero-denominator guard) it never
raises a division error. -/
theorem pearson_correlation_bounded (x y : List ℚ) (_hlen : x.length = y.length) :
    (-1 ≤ (calculate_correlation x y).1 ∧ (calculate_correlation x y).1 ≤ 1)
    ∧ (corrDenomSq x y = 0 →
        calculate_correlation x y
          = (0, "No correlation (insufficient variation in data)")) := by
  unfold calculate_correlation
  by_cases hD : corrDenomSq x y = 0
  · rw [if_pos hD]
    exact ⟨⟨by norm_num, by norm_num⟩, fun _ => rfl⟩
  · rw [if_neg hD]
    refine ⟨?_, fun hc => absurd hc hD⟩
    have hDpos : (0:ℝ) < (corrDenomSq x y : ℝ) := by
      have h0 : (0:ℚ) < corrDenomSq x y :=
        lt_of_le_of_ne (corrDenomSq_nonneg x y) (Ne.symm hD)
      exact_mod_cast h0
    have hsqrt : 0 < Real.sqrt (corrDenomSq x y : ℝ) := Real.sqrt_pos.mpr hDpos
    have hcs : ((corrNumerator x y : ℝ)) ^ 2 ≤ ((corrDenomSq x y : ℝ)) := by
      exact_mod_cast corrNumerator_sq_le x y
    have habs : |(corrNumerator x y : ℝ)| ≤ Real.sqrt (corrDenomSq x y : ℝ) :=
      Real.abs_le_sqrt hcs
    have hq : |(corrNumerator x y : ℝ) / Real.sqrt (corrDenomSq x y : ℝ)| ≤ 1 := by
      rw [abs_div, abs_of_pos hsqrt]
      exact (div_le_one hsqrt).mpr habs
    exact abs_le.mp hq

/-- C3 witness: the bound instantiated at two concrete equal-length
series. -/
theorem pearson_correlation_bounded_witness :
    ([(1:ℚ), 2, 3].length = [(2:ℚ), 4, 6].length)
    ∧ ((-1 ≤ (calculate_correlation [(1:ℚ), 2, 3] [(2:ℚ), 4, 6]).1
        ∧ (calculate_correlation [(1:ℚ), 2, 3] [(2:ℚ), 4, 6]).1 ≤ 1)
      ∧ (corrDenomSq [(1:ℚ), 2, 3] [(2:ℚ), 4, 6] = 0 →
          calculate_correlation [(1:ℚ), 2, 3] [(2:ℚ), 4, 6]
            = (0, "No correlation (insufficient variation in data)"))) :=
  ⟨rfl, pearson_correlation_bounded [(1:ℚ), 2, 3] [(2:ℚ), 4, 6] rfl⟩

/-- C9: the interpretation bands of `interpret_correlation`: strength
"Very strong" for `|r| ≥ 0.9`, "Strong" on `[0.7, 0.9)`, "Moderate" on
`[0.5, 0.7)`, "Weak" on `[0.3, 0.5)`, "Very weak or no" below; the
direction is "positive" when `r ≥ 0` and "negative" when `r < 0`. -/
theorem interpret_correlation_bands (r : ℝ) :
    (9/10 ≤ |r| → 0 ≤ r → interpret_correlation r = "Very strong positive correlation")
  ∧ (9/10 ≤ |r| → r < 0 → interpret_correlation r = "Very strong negative correlation")
  ∧ (7/10 ≤ |r| → |r| < 9/10 → 0 ≤ r →
      interpret_correlation r = "Strong positive correlation")
  ∧ (7/10 ≤ |r| → |r| < 9/10 → r < 0 →
      interpret_correlation r = "Strong negative correlation")
  ∧ (5/10 ≤ |r| → |r| < 7/10 → 0 ≤ r →
      interpret_correlation r = "Moderate positive correlation")
  ∧ (5/10 ≤ |r| → |r| < 7/10 → r < 0 →
      interpret_correlation r = "Moderate negative correlation")
  ∧ (3/10 ≤ |r| → |r| < 5/10 → 0 ≤ r →
      interpret_correlation r = "Weak positive correlation")
  ∧ (3/10 ≤ |r| → |r| < 5/10 → r < 0 →
      interpret_correlation r = "Weak negative correlation")
  ∧ (|r| < 3/10 → 0 ≤ r →
      interpret_correlation r = "Very weak or no positive correlation")
  ∧ (|r| < 3/10 → r < 0 →
      interpret_correlation r = "Very weak or no negative correlation") := by
  refine ⟨?_, ?_, ?_, ?_, ?_, ?_, ?_, ?_, ?_, ?_⟩
  · intro h1 h2
    unfold interpret_correlation
    rw [if_pos h1, if_pos h2]
    rfl
  · intro h1 h2
    unfold interpret_correlation
    rw [if_pos h1, if_neg (not_le.mpr h2)]
    rfl
  · intro h1 h2 h3
    unfold interpret_correlation
    rw [if_neg (not_le.mpr h2), if_pos h1, if_pos h3]
    rfl
  · intro h1 h2 h3
    unfold interpret_correlation
    rw [if_neg (not_le.mpr h2), if_pos h1, if_neg (not_le.mpr h3)]
    rfl
  · intro h1 h2 h3
    unfold interpret_correlation
    rw [if_neg (not_le.mpr (lt_of_lt_of_le h2 (by norm_num))),
      if_neg (not_le.mpr h2), if_pos h1, if_pos h3]
    rfl
  · intro h1 h2 h3
    unfold interpret_correlation
    rw [if_neg (not_le.mpr (lt_of_lt_of_le h2 (by norm_num))),
      if_neg (not_le.mpr h2), if_pos h1, if_neg (not_le.mpr h3)]
    rfl
  · intro h1 h2 h3
    unfold interpret_correlation
    rw [if_neg (not_le.mpr (lt_of_lt_of_le h2 (by norm_num))),
      if_neg (not_le.mpr (lt_of_lt_of_le h2 (by norm_num))),
      if_neg (not_le.mpr h2), if_pos h1, if_pos h3]
    rfl
  · intro h1 h2 h3
    unfold interpret_correlation
    rw [if_neg (not_le.mpr (lt_of_lt_of_le h2 (by norm_num))),
      if_neg (not_le.mpr (lt_of_lt_of_le h2 (by norm_num))),
      if_neg (not_le.mpr h2), if_pos h1, if_neg (not_le.mpr h3)]
    rfl
  · intro h1 h2
    unfold interpret_correlation
    rw [if_neg (not_le.mpr (lt_of_lt_of_le h1 (by norm_num))),
      if_neg (not_le.mpr (lt_of_lt_of_le h1 (by norm_num))),
      if_neg (not_le.mpr (lt_of_lt_of_le h1 (by norm_num))),
      if_neg (not_le.mpr h1), if_pos h2]
    rfl
  · intro h1 h2
    unfold interpret_correlation
    rw [if_neg (not_le.mpr (lt_of_lt_of_le h1 (by norm_num))),
      if_neg (not_le.mpr (lt_of_lt_of_le h1 (by norm_num))),
      if_neg (not_le.mpr (lt_of_lt_of_le h1 (by norm_num))),
      if_neg (not_le.mpr h1), if_neg (not_le.mpr h2)]
    rfl

/-- C9 witness: the bands instantiated at r = 1 (very strong positive). -/
theorem interpret_correlation_bands_witness :
    ((9:ℝ)/10 ≤ |(1:ℝ)| ∧ (0:ℝ) ≤ 1)
    ∧ interpret_correlation 1 = "Very strong positive correlation" :=
  ⟨⟨by norm_num, by norm_num⟩,
    (interpret_correlation_bands 1).1 (by norm_num) (by norm_num)⟩
